import Mathlib

/-!
Verification of the NBA dashboard's filter-and-aggregation logic.

The repository holds two near-duplicate dashboards:
* `app.py`     — fixed `nba_all_elo.csv` schema (`year_id`, `date_game`, `fran_id`,
                 `opp_fran`, `is_playoffs`, `game_result`, `pts`, `opp_pts`);
* `streamilt.py` — schema-flexible variant probing for `team1`/`team2`,
                 `score1`/`score2`, `game_result`, `date`, `is_playoffs` columns.

Both are embedded below as pure functions over lists of rows.  Pandas
`sort_values` is modelled as an insertion sort on the sort key.  This is a
deterministic stand-in for pandas' default quicksort, whose relative order of
equal-key rows is unspecified, so theorems read off the sorted output only
facts that hold for every ascending reordering — sortedness and multiset
equality — except for the `game_number` re-sorts, whose keys are pairwise
distinct and therefore determine the order exactly.  Boolean-mask filtering
is modelled as `List.filter`; column assignment as construction of annotated
records that carry the untouched source row alongside the derived fields.
-/

/-! ### Shared filter selection (year, team, game type) -/

inductive GameType
  | regular
  | playoffs
  | both
deriving DecidableEq

structure Selection where
  year : Int
  team : String
  gameType : GameType
deriving DecidableEq

/-! ### Model of `app.py` -/

/-- One row of `nba_all_elo.csv` as used by `app.py`.  Dates are modelled as
integers (any order-isomorphic encoding of calendar dates). -/
structure Row where
  year_id : Int
  date_game : Int
  fran_id : String
  opp_fran : String
  is_playoffs : Nat
  game_result : String
  pts : Int
  opp_pts : Int
deriving DecidableEq

/-- Source `app.py` line 60/63: `year_filter = df['year_id'] == selected_year`,
`team_filter = (df['fran_id'] == selected_team) | (df['opp_fran'] == selected_team)`. -/
def matchesYearTeam (sel : Selection) (r : Row) : Bool :=
  (r.year_id == sel.year) && ((r.fran_id == sel.team) || (r.opp_fran == sel.team))

/-- Source `app.py` lines 69-73: the game-type restriction on `is_playoffs`. -/
def matchesGameType (sel : Selection) (r : Row) : Bool :=
  match sel.gameType with
  | .both => true
  | .playoffs => r.is_playoffs == 1
  | .regular => r.is_playoffs == 0

/-- Source `app.py` lines 66-73: `filtered_df = df[year_filter & team_filter]` followed by
the game-type filter. -/
def filteredRows (df : List Row) (sel : Selection) : List Row :=
  (df.filter (matchesYearTeam sel)).filter (matchesGameType sel)

/-- Sort key relation for `sort_values('date_game')`. -/
def dateLe (a b : Row) : Prop := a.date_game ≤ b.date_game

instance : DecidableRel dateLe :=
  fun a b => inferInstanceAs (Decidable (a.date_game ≤ b.date_game))

instance : IsTotal Row dateLe := ⟨fun a b => Int.le_total a.date_game b.date_game⟩

instance : IsTrans Row dateLe := ⟨fun _ _ _ => Int.le_trans⟩

/-- Source `app.py` lines 76-77: `filtered_df = filtered_df.sort_values('date_game')`
(the `date_game` column is always present in this schema).  `sort_values`'
default quicksort leaves the relative order of equal dates unspecified; the
insertion sort here fixes one ascending reordering, and theorems about this
output assert only properties shared by all of them. -/
def sortedRows (df : List Row) (sel : Selection) : List Row :=
  List.insertionSort dateLe (filteredRows df sel)

/-- Source `app.py` line 83: `'W' if row['game_result'] == 'L' else 'L'` — the
perspective inversion applied when the selected team is the opponent side. -/
def invertResult (s : String) : String := if s == "L" then "W" else "L"

/-- A filtered row with the derived columns of `app.py` lines 80-89 appended:
`is_team`, `team_result`, `game_number`.  The source row travels untouched in
the `row` field. -/
structure AnnotatedGame where
  row : Row
  is_team : Bool
  team_result : String
  game_number : Nat
deriving DecidableEq

/-- Source `app.py` lines 80-85 for one row at 0-based position `i` of the sorted frame. -/
def annotateRow (sel : Selection) (i : Nat) (r : Row) : AnnotatedGame :=
  { row := r
    is_team := r.fran_id == sel.team
    team_result :=
      if r.fran_id == sel.team then r.game_result else invertResult r.game_result
    game_number := i + 1 }

/-- Row-wise annotation with 1-based positions, `app.py` lines 80-89
(`apply(..., axis=1)` then `game_number = range(1, len+1)`). -/
def annotateFrom (sel : Selection) : Nat → List Row → List AnnotatedGame
  | _, [] => []
  | i, r :: rs => annotateRow sel i r :: annotateFrom sel (i + 1) rs

/-- The filtered, date-ordered, annotated game log of `app.py`. -/
def appGameLog (df : List Row) (sel : Selection) : List AnnotatedGame :=
  annotateFrom sel 0 (sortedRows df sel)

/-- Sort key relation for `wins_df.sort_values('game_number')`. -/
def numLe (a b : AnnotatedGame) : Prop := a.game_number ≤ b.game_number

instance : DecidableRel numLe :=
  fun a b => inferInstanceAs (Decidable (a.game_number ≤ b.game_number))

instance : IsTotal AnnotatedGame numLe := ⟨fun a b => Nat.le_total a.game_number b.game_number⟩

instance : IsTrans AnnotatedGame numLe := ⟨fun _ _ _ => Nat.le_trans⟩

/-- Source `app.py` lines 100, 108: the win-only subsequence, re-sorted by `game_number`. -/
def appWins (df : List Row) (sel : Selection) : List AnnotatedGame :=
  List.insertionSort numLe ((appGameLog df sel).filter (fun a => a.team_result == "W"))

/-- Source `app.py` lines 101, 115: the loss-only subsequence, re-sorted by `game_number`. -/
def appLosses (df : List Row) (sel : Selection) : List AnnotatedGame :=
  List.insertionSort numLe ((appGameLog df sel).filter (fun a => a.team_result == "L"))

/-- Source `app.py` line 109: `wins_df['cumulative_wins'] = range(1, len(wins_df) + 1)`. -/
def cumulative_wins (df : List Row) (sel : Selection) : List Nat :=
  List.range' 1 (appWins df sel).length

/-- Source `app.py` line 116: `losses_df['cumulative_losses'] = range(1, len(losses_df) + 1)`. -/
def cumulative_losses (df : List Row) (sel : Selection) : List Nat :=
  List.range' 1 (appLosses df sel).length

/-- Source `app.py` line 180: `win_count = results_count.get('W', 0)`. -/
def appWinCount (df : List Row) (sel : Selection) : Nat :=
  ((appGameLog df sel).map (fun a => a.team_result)).count "W"

/-- Source `app.py` line 181: `loss_count = results_count.get('L', 0)`. -/
def appLossCount (df : List Row) (sel : Selection) : Nat :=
  ((appGameLog df sel).map (fun a => a.team_result)).count "L"

/-- Source `app.py` line 182: `total_games = win_count + loss_count`. -/
def appTotalGames (df : List Row) (sel : Selection) : Nat :=
  appWinCount df sel + appLossCount df sel

/-- The three summary states of the right-hand column: "No data available",
"No games with clear results", or the pie chart with metrics.  The percentage
divisions of `app.py` lines 206/209 (`streamilt.py` 215/218) occur only when
the `stats` constructor is produced. -/
inductive SummaryView
  | noData
  | noResults
  | stats (total wins losses : Nat) (winPct lossPct : ℚ)
deriving DecidableEq

/-- Source `app.py` lines 175-213: the `not filtered_df.empty` and `total_games > 0`
guards around the percentage computation. -/
def appSummary (df : List Row) (sel : Selection) : SummaryView :=
  if appGameLog df sel = [] then .noData
  else
    let w := appWinCount df sel
    let l := appLossCount df sel
    if 0 < w + l then
      .stats (w + l) w l ((w : ℚ) * 100 / (w + l)) ((l : ℚ) * 100 / (w + l))
    else .noResults

/-! ### Additional statistics of `app.py` (lines 219-274) -/

/-- Source `app.py` lines 221/243: `filtered_df[filtered_df['is_team']]` — the subset
of filtered games where the selected team is the primary side. -/
def team_games (df : List Row) (sel : Selection) : List AnnotatedGame :=
  (appGameLog df sel).filter (fun a => a.is_team)

/-- Arithmetic mean over rationals; `none` models pandas `Series.mean()` of an
empty series (NaN). -/
def meanQ (xs : List ℚ) : Option ℚ :=
  if xs = [] then none else some (xs.sum / xs.length)

/-- Source `app.py` line 221: `filtered_df[filtered_df['is_team']]['pts'].mean()`. -/
def avg_pts_scored (df : List Row) (sel : Selection) : Option ℚ :=
  meanQ ((team_games df sel).map (fun a => (a.row.pts : ℚ)))

/-- Source `app.py` line 222: `filtered_df[filtered_df['is_team']]['opp_pts'].mean()`. -/
def avg_pts_allowed (df : List Row) (sel : Selection) : Option ℚ :=
  meanQ ((team_games df sel).map (fun a => (a.row.opp_pts : ℚ)))

/-- Source `app.py` line 234: `point_diff = avg_pts_scored - avg_pts_allowed`
(NaN propagates when either side is a mean over no games). -/
def point_diff (df : List Row) (sel : Selection) : Option ℚ :=
  match avg_pts_scored df sel, avg_pts_allowed df sel with
  | some s, some a => some (s - a)
  | _, _ => none

/-- Sort key relation for `team_games.sort_values('date_game')` (line 244). -/
def gdateLe (a b : AnnotatedGame) : Prop := a.row.date_game ≤ b.row.date_game

instance : DecidableRel gdateLe :=
  fun a b => inferInstanceAs (Decidable (a.row.date_game ≤ b.row.date_game))

instance : IsTotal AnnotatedGame gdateLe :=
  ⟨fun a b => Int.le_total a.row.date_game b.row.date_game⟩

instance : IsTrans AnnotatedGame gdateLe := ⟨fun _ _ _ => Int.le_trans⟩

/-- Source `app.py` lines 243-244: the rows feeding the points scored-vs-allowed bar
chart: `team_games = filtered_df[filtered_df['is_team']].sort_values('date_game')`. -/
def teamGamesChart (df : List Row) (sel : Selection) : List AnnotatedGame :=
  List.insertionSort gdateLe (team_games df sel)

/-! ### Model of `streamilt.py`

`streamilt.py` probes the frame for column names at run time, so the embedding
carries the list of column names (`SSchema`) next to the row data.  An `SRow`
holds a field for every column the script can touch; fields whose column is
absent from the schema are simply never read by the functions below, mirroring
the `'...' in df.columns` guards.  `firstCol` is the value of the frame's first
column, the fallback sort key of line 117. -/

structure SRow where
  firstCol : Int
  year : Int
  date : Int
  team1 : String
  team2 : String
  score1 : Int
  score2 : Int
  game_result : String
  is_playoffs : Nat
deriving DecidableEq

/-- The run-time column-name list of the loaded frame. -/
structure SSchema where
  columns : List String
deriving DecidableEq

/-- Membership test `'c' in df.columns`. -/
def hasCol (sch : SSchema) (c : String) : Bool := sch.columns.contains c

/-- Substring test on character lists (for `'score' in col.lower()`). -/
def containsSub (needle : List Char) : List Char → Bool
  | [] => needle.isEmpty
  | c :: t => needle.isPrefixOf (c :: t) || containsSub needle t

/-- Test `'score' in col.lower()` (line 108): the column name is lower-cased
character by character and scanned for the substring "score". -/
def nameHasScore (c : String) : Bool :=
  containsSub ([ 's', 'c', 'o', 'r', 'e' ]) (c.toList.map Char.toLower)

/-- Line 108: `score_cols = [col for col in filtered_df.columns if 'score' in col.lower()]`. -/
def score_cols (sch : SSchema) : List String := sch.columns.filter nameHasScore

/-- Which branch of the result-derivation `if`-chain (lines 96-114) runs.
`scanWarn cols` records the `st.warning` naming the first two scanned columns;
`noScore` the `st.error` of line 113. -/
inductive DeriveBranch
  | direct
  | fromScores
  | scanWarn (cols : List String)
  | noScore
deriving DecidableEq

/-- The branch selection of `streamilt.py` lines 96-114. -/
def deriveBranch (sch : SSchema) : DeriveBranch :=
  if hasCol sch "game_result" then .direct
  else if hasCol sch "score1" && hasCol sch "score2" then .fromScores
  else if 2 ≤ (score_cols sch).length then .scanWarn ((score_cols sch).take 2)
  else .noScore

/-- Source `streamilt.py` lines 102-103: the score-based result from the selected
team's perspective. -/
def scoreResult (sel : Selection) (r : SRow) : String :=
  if ((r.team1 == sel.team) && (r.score2 < r.score1)) ||
     ((r.team2 == sel.team) && (r.score1 < r.score2)) then "W" else "L"

/-- The per-row `game_result` value after lines 96-114: the direct column is
used as-is (`pass`), scores are compared, and both fallback branches assign
the literal `'Unknown'`. -/
def sResult (sch : SSchema) (sel : Selection) (r : SRow) : String :=
  match deriveBranch sch with
  | .direct => r.game_result
  | .fromScores => scoreResult sel r
  | .scanWarn _ => "Unknown"
  | .noScore => "Unknown"

/-- Source `streamilt.py` lines 77-83: team-and-year filter, with the year-only
fallback when the `team1`/`team2` columns are missing. -/
def sFilteredBase (sch : SSchema) (df : List SRow) (sel : Selection) : List SRow :=
  if hasCol sch "team1" && hasCol sch "team2" then
    df.filter (fun r =>
      ((r.team1 == sel.team) || (r.team2 == sel.team)) && (r.year == sel.year))
  else df.filter (fun r => r.year == sel.year)

/-- Source `streamilt.py` lines 86-90: the game-type filter, applied only when the
`is_playoffs` column exists. -/
def sFiltered (sch : SSchema) (df : List SRow) (sel : Selection) : List SRow :=
  let base := sFilteredBase sch df sel
  if hasCol sch "is_playoffs" then
    match sel.gameType with
    | .both => base
    | .playoffs => base.filter (fun r => r.is_playoffs == 1)
    | .regular => base.filter (fun r => r.is_playoffs == 0)
  else base

/-- Line 117's sort key: `'date' if 'date' in filtered_df.columns else
filtered_df.columns[0]`. -/
def sSortKey (sch : SSchema) (r : SRow) : Int :=
  if hasCol sch "date" then r.date else r.firstCol

/-- Sort key relation for `streamilt.py` line 117. -/
def sKeyLe (sch : SSchema) (a b : SRow) : Prop := sSortKey sch a ≤ sSortKey sch b

instance (sch : SSchema) : DecidableRel (sKeyLe sch) :=
  fun a b => inferInstanceAs (Decidable (sSortKey sch a ≤ sSortKey sch b))

instance (sch : SSchema) : IsTotal SRow (sKeyLe sch) :=
  ⟨fun a b => Int.le_total (sSortKey sch a) (sSortKey sch b)⟩

instance (sch : SSchema) : IsTrans SRow (sKeyLe sch) := ⟨fun _ _ _ => Int.le_trans⟩

/-- A filtered `streamilt.py` row with the derived `game_result` and
`game_number` columns appended. -/
structure SGame where
  row : SRow
  game_result : String
  game_number : Nat
deriving DecidableEq

/-- Row-wise annotation with 1-based positions (lines 96-118). -/
def sAnnotateFrom (sch : SSchema) (sel : Selection) : Nat → List SRow → List SGame
  | _, [] => []
  | i, r :: rs =>
    { row := r, game_result := sResult sch sel r, game_number := i + 1 } ::
      sAnnotateFrom sch sel (i + 1) rs

/-- The filtered, sorted, annotated game log of `streamilt.py`. -/
def sGameLog (sch : SSchema) (df : List SRow) (sel : Selection) : List SGame :=
  sAnnotateFrom sch sel 0 (List.insertionSort (sKeyLe sch) (sFiltered sch df sel))

/-- Sort key relation for `wins_df.sort_values('game_number')` (line 135). -/
def sNumLe (a b : SGame) : Prop := a.game_number ≤ b.game_number

instance : DecidableRel sNumLe :=
  fun a b => inferInstanceAs (Decidable (a.game_number ≤ b.game_number))

instance : IsTotal SGame sNumLe := ⟨fun a b => Nat.le_total a.game_number b.game_number⟩

instance : IsTrans SGame sNumLe := ⟨fun _ _ _ => Nat.le_trans⟩

/-- Source `streamilt.py` lines 130, 135: the win-only subsequence. -/
def sWins (sch : SSchema) (df : List SRow) (sel : Selection) : List SGame :=
  List.insertionSort sNumLe ((sGameLog sch df sel).filter (fun a => a.game_result == "W"))

/-- Source `streamilt.py` lines 131, 146: the loss-only subsequence. -/
def sLosses (sch : SSchema) (df : List SRow) (sel : Selection) : List SGame :=
  List.insertionSort sNumLe ((sGameLog sch df sel).filter (fun a => a.game_result == "L"))

/-- Line 136: `wins_df['cumulative_wins'] = range(1, len(wins_df) + 1)`. -/
def s_cumulative_wins (sch : SSchema) (df : List SRow) (sel : Selection) : List Nat :=
  List.range' 1 (sWins sch df sel).length

/-- Line 147: `losses_df['cumulative_losses'] = range(1, len(losses_df) + 1)`. -/
def s_cumulative_losses (sch : SSchema) (df : List SRow) (sel : Selection) : List Nat :=
  List.range' 1 (sLosses sch df sel).length

/-- Line 186: `win_count = results_count.get('W', 0)`. -/
def sWinCount (sch : SSchema) (df : List SRow) (sel : Selection) : Nat :=
  ((sGameLog sch df sel).map (fun a => a.game_result)).count "W"

/-- Line 187: `loss_count = results_count.get('L', 0)`. -/
def sLossCount (sch : SSchema) (df : List SRow) (sel : Selection) : Nat :=
  ((sGameLog sch df sel).map (fun a => a.game_result)).count "L"

/-- Line 188: `total_games = win_count + loss_count`. -/
def sTotalGames (sch : SSchema) (df : List SRow) (sel : Selection) : Nat :=
  sWinCount sch df sel + sLossCount sch df sel

/-- Source `streamilt.py` lines 181-222: the guards around the pie chart and the
percentage metrics.  When the filtered frame is non-empty its `game_result`
column always exists (either it was in the schema or lines 96-114 assigned
it), so the guard of line 181 reduces to non-emptiness. -/
def sSummary (sch : SSchema) (df : List SRow) (sel : Selection) : SummaryView :=
  if sGameLog sch df sel = [] then .noData
  else
    let w := sWinCount sch df sel
    let l := sLossCount sch df sel
    if 0 < w + l then
      .stats (w + l) w l ((w : ℚ) * 100 / (w + l)) ((l : ℚ) * 100 / (w + l))
    else .noResults

/-! ### Concrete datasets used to evaluate the models at specific inputs -/

/-- A `streamilt.py` schema with a direct `game_result` column. -/
def c1sch : SSchema := ⟨[ "year", "date", "team1", "team2", "game_result" ]⟩

/-- A game stored with the selected team on the opponent (`team2`) side and a
primary-side win code. -/
def c1row : SRow :=
  { firstCol := 0, year := 2015, date := 5, team1 := "B", team2 := "A",
    score1 := 0, score2 := 0, game_result := "W", is_playoffs := 0 }

def c1sel : Selection := ⟨2015, "A", GameType.both⟩

/-- Schema with no `game_result` and no `score1`/`score2`, but two column
names containing "score". -/
def c2sch : SSchema := ⟨[ "year", "team1", "team2", "home_score", "away_score" ]⟩

def c2row : SRow :=
  { firstCol := 0, year := 2020, date := 0, team1 := "A", team2 := "B",
    score1 := 100, score2 := 90, game_result := "", is_playoffs := 0 }

def c2sel : Selection := ⟨2020, "A", GameType.both⟩

def c3sch : SSchema := ⟨[ "year", "team1", "team2", "score1", "score2" ]⟩

def c3row : SRow :=
  { firstCol := 0, year := 2020, date := 0, team1 := "A", team2 := "B",
    score1 := 101, score2 := 99, game_result := "", is_playoffs := 0 }

def c3sel : Selection := ⟨2020, "A", GameType.both⟩

def c3game : SGame := { row := c3row, game_result := "W", game_number := 1 }

def c4df : List Row :=
  [ { year_id := 2015, date_game := 3, fran_id := "GSW", opp_fran := "CLE",
      is_playoffs := 0, game_result := "W", pts := 100, opp_pts := 90 } ]

def c4sel : Selection := ⟨2015, "GSW", GameType.both⟩

/-- A schema with no `date` column: line 117 then sorts by the first column. -/
def c4sch : SSchema := ⟨[ "firstCol", "year", "team1", "team2", "game_result" ]⟩

def c4sr1 : SRow :=
  { firstCol := 2, year := 2015, date := 0, team1 := "GSW", team2 := "CLE",
    score1 := 0, score2 := 0, game_result := "W", is_playoffs := 0 }

def c4sr2 : SRow :=
  { firstCol := 1, year := 2015, date := 0, team1 := "GSW", team2 := "POR",
    score1 := 0, score2 := 0, game_result := "L", is_playoffs := 0 }

/-- Natural source order: the row with first-column value 2 comes first. -/
def c4sdf : List SRow := [ c4sr1, c4sr2 ]

def c5df : List Row :=
  [ { year_id := 2015, date_game := 1, fran_id := "GSW", opp_fran := "CLE",
      is_playoffs := 0, game_result := "W", pts := 100, opp_pts := 90 },
    { year_id := 2015, date_game := 2, fran_id := "CLE", opp_fran := "GSW",
      is_playoffs := 0, game_result := "W", pts := 95, opp_pts := 80 } ]

def c5sel : Selection := ⟨2015, "GSW", GameType.both⟩

def c5sch : SSchema := ⟨[ "year", "team1", "team2", "game_result" ]⟩

def c5sdf : List SRow :=
  [ { firstCol := 0, year := 2015, date := 0, team1 := "GSW", team2 := "CLE",
      score1 := 0, score2 := 0, game_result := "W", is_playoffs := 0 } ]

def c7df : List Row := []

def c7sel : Selection := ⟨2015, "GSW", GameType.both⟩

/-- Schema where result derivation is impossible: every result is `Unknown`,
so the determined-game total is 0 on a non-empty filtered set. -/
def c7sch : SSchema := ⟨[ "year", "team1", "team2" ]⟩

def c7sdf : List SRow :=
  [ { firstCol := 0, year := 2015, date := 0, team1 := "GSW", team2 := "CLE",
      score1 := 0, score2 := 0, game_result := "", is_playoffs := 0 } ]

def c8sch : SSchema := ⟨[ "year", "team1", "team2" ]⟩

def c8row : SRow :=
  { firstCol := 0, year := 2015, date := 1, team1 := "GSW", team2 := "CLE",
    score1 := 0, score2 := 0, game_result := "", is_playoffs := 0 }

def c8sel : Selection := ⟨2015, "GSW", GameType.both⟩

def c8game : SGame := { row := c8row, game_result := "Unknown", game_number := 1 }

/-! ### Helper lemmas -/

theorem annotateFrom_map_row (sel : Selection) :
    ∀ (i : Nat) (l : List Row), (annotateFrom sel i l).map (fun a => a.row) = l
  | _, [] => rfl
  | i, r :: rs => by
    simp [annotateFrom, annotateRow, annotateFrom_map_row sel (i + 1) rs]

theorem annotateFrom_length (sel : Selection) :
    ∀ (i : Nat) (l : List Row), (annotateFrom sel i l).length = l.length
  | _, [] => rfl
  | i, r :: rs => by
    simp [annotateFrom, annotateFrom_length sel (i + 1) rs]

theorem annotateFrom_map_num (sel : Selection) :
    ∀ (i : Nat) (l : List Row),
      (annotateFrom sel i l).map (fun a => a.game_number) = List.range' (i + 1) l.length
  | _, [] => rfl
  | i, r :: rs => by
    simp [annotateFrom, annotateRow, List.range'_succ,
      annotateFrom_map_num sel (i + 1) rs]

theorem annotateFrom_mem (sel : Selection) :
    ∀ (i : Nat) (l : List Row) (a : AnnotatedGame), a ∈ annotateFrom sel i l →
      a.row ∈ l ∧ a.is_team = (a.row.fran_id == sel.team) ∧
        a.team_result = (if a.row.fran_id == sel.team then a.row.game_result
          else invertResult a.row.game_result)
  | i, r :: rs, a, h => by
    rcases List.mem_cons.mp h with h1 | h2
    · subst h1
      exact ⟨List.mem_cons_self _ _, rfl, rfl⟩
    · obtain ⟨h3, h4, h5⟩ := annotateFrom_mem sel (i + 1) rs a h2
      exact ⟨List.mem_cons_of_mem _ h3, h4, h5⟩

theorem sAnnotateFrom_map_row (sch : SSchema) (sel : Selection) :
    ∀ (i : Nat) (l : List SRow), (sAnnotateFrom sch sel i l).map (fun a => a.row) = l
  | _, [] => rfl
  | i, r :: rs => by
    simp [sAnnotateFrom, sAnnotateFrom_map_row sch sel (i + 1) rs]

theorem sAnnotateFrom_length (sch : SSchema) (sel : Selection) :
    ∀ (i : Nat) (l : List SRow), (sAnnotateFrom sch sel i l).length = l.length
  | _, [] => rfl
  | i, r :: rs => by
    simp [sAnnotateFrom, sAnnotateFrom_length sch sel (i + 1) rs]

theorem sAnnotateFrom_map_num (sch : SSchema) (sel : Selection) :
    ∀ (i : Nat) (l : List SRow),
      (sAnnotateFrom sch sel i l).map (fun a => a.game_number) = List.range' (i + 1) l.length
  | _, [] => rfl
  | i, r :: rs => by
    simp [sAnnotateFrom, List.range'_succ, sAnnotateFrom_map_num sch sel (i + 1) rs]

theorem sAnnotateFrom_mem (sch : SSchema) (sel : Selection) :
    ∀ (i : Nat) (l : List SRow) (a : SGame), a ∈ sAnnotateFrom sch sel i l →
      a.row ∈ l ∧ a.game_result = sResult sch sel a.row
  | i, r :: rs, a, h => by
    rcases List.mem_cons.mp h with h1 | h2
    · subst h1
      exact ⟨List.mem_cons_self _ _, rfl⟩
    · obtain ⟨h3, h4⟩ := sAnnotateFrom_mem sch sel (i + 1) rs a h2
      exact ⟨List.mem_cons_of_mem _ h3, h4⟩

theorem getLastD_range' : ∀ (n s d : Nat), (List.range' s (n + 1)).getLastD d = s + n
  | 0, s, d => rfl
  | n + 1, s, d => by
    rw [List.range'_succ, List.getLastD_cons, getLastD_range' n (s + 1) s]
    omega

theorem getLastD_range'_one (m : Nat) : (List.range' 1 m).getLastD 0 = m := by
  cases m with
  | zero => rfl
  | succ k => rw [getLastD_range']; omega

theorem count_map_eq_length_filter {α : Type} (f : α → String) (s : String) :
    ∀ l : List α, (l.map f).count s = (l.filter (fun a => f a == s)).length := by
  intro l
  induction l with
  | nil => rfl
  | cons a t ih =>
    rw [List.map_cons, List.count_cons, List.filter_cons, ih]
    by_cases h : (f a == s) = true <;> simp [h]

theorem length_filter_w_or_l {α : Type} (f : α → String) :
    ∀ l : List α, (l.filter (fun a => f a == "W" || f a == "L")).length
      = (l.filter (fun a => f a == "W")).length + (l.filter (fun a => f a == "L")).length := by
  intro l
  induction l with
  | nil => rfl
  | cons a t ih =>
    by_cases hw : (f a == "W") = true
    · have hl : (f a == "L") = false := by
        have h1 : f a = "W" := by simpa using hw
        simp [h1]
      simp [List.filter_cons, hw, hl, ih]
      omega
    · by_cases hl : (f a == "L") = true
      · simp [List.filter_cons, hw, hl, ih]
        omega
      · simp [List.filter_cons, hw, hl, ih]

theorem appGameLog_map_row (df : List Row) (sel : Selection) :
    (appGameLog df sel).map (fun a => a.row) = sortedRows df sel :=
  annotateFrom_map_row sel 0 (sortedRows df sel)

theorem appGameLog_perm (df : List Row) (sel : Selection) :
    ((appGameLog df sel).map (fun a => a.row)).Perm (filteredRows df sel) := by
  rw [appGameLog_map_row]
  exact List.perm_insertionSort dateLe (filteredRows df sel)

theorem appGameLog_sorted (df : List Row) (sel : Selection) :
    List.Sorted dateLe ((appGameLog df sel).map (fun a => a.row)) := by
  rw [appGameLog_map_row]
  exact List.sorted_insertionSort dateLe (filteredRows df sel)

theorem appGameLog_map_num (df : List Row) (sel : Selection) :
    (appGameLog df sel).map (fun a => a.game_number)
      = List.range' 1 (appGameLog df sel).length := by
  rw [appGameLog, annotateFrom_map_num sel 0 (sortedRows df sel),
    annotateFrom_length sel 0 (sortedRows df sel)]

theorem appGameLog_mem (df : List Row) (sel : Selection) (a : AnnotatedGame)
    (h : a ∈ appGameLog df sel) :
    a.row ∈ filteredRows df sel ∧ a.is_team = (a.row.fran_id == sel.team) ∧
      a.team_result = (if a.row.fran_id == sel.team then a.row.game_result
        else invertResult a.row.game_result) := by
  obtain ⟨h1, h2, h3⟩ := annotateFrom_mem sel 0 (sortedRows df sel) a h
  exact ⟨(List.mem_insertionSort dateLe).mp h1, h2, h3⟩

theorem sGameLog_map_row (sch : SSchema) (df : List SRow) (sel : Selection) :
    (sGameLog sch df sel).map (fun a => a.row)
      = List.insertionSort (sKeyLe sch) (sFiltered sch df sel) :=
  sAnnotateFrom_map_row sch sel 0 _

theorem sGameLog_perm (sch : SSchema) (df : List SRow) (sel : Selection) :
    ((sGameLog sch df sel).map (fun a => a.row)).Perm (sFiltered sch df sel) := by
  rw [sGameLog_map_row]
  exact List.perm_insertionSort (sKeyLe sch) (sFiltered sch df sel)

theorem sGameLog_sorted (sch : SSchema) (df : List SRow) (sel : Selection) :
    List.Sorted (sKeyLe sch) ((sGameLog sch df sel).map (fun a => a.row)) := by
  rw [sGameLog_map_row]
  exact List.sorted_insertionSort (sKeyLe sch) (sFiltered sch df sel)

theorem sGameLog_map_num (sch : SSchema) (df : List SRow) (sel : Selection) :
    (sGameLog sch df sel).map (fun a => a.game_number)
      = List.range' 1 (sGameLog sch df sel).length := by
  rw [sGameLog, sAnnotateFrom_map_num sch sel 0 _, sAnnotateFrom_length sch sel 0 _]

theorem sGameLog_mem (sch : SSchema) (df : List SRow) (sel : Selection) (a : SGame)
    (h : a ∈ sGameLog sch df sel) :
    a.row ∈ sFiltered sch df sel ∧ a.game_result = sResult sch sel a.row := by
  obtain ⟨h1, h2⟩ := sAnnotateFrom_mem sch sel 0 _ a h
  exact ⟨(List.mem_insertionSort (sKeyLe sch)).mp h1, h2⟩

theorem appWins_length (df : List Row) (sel : Selection) :
    (appWins df sel).length
      = ((appGameLog df sel).filter (fun a => a.team_result == "W")).length :=
  List.length_insertionSort numLe _

theorem appLosses_length (df : List Row) (sel : Selection) :
    (appLosses df sel).length
      = ((appGameLog df sel).filter (fun a => a.team_result == "L")).length :=
  List.length_insertionSort numLe _

theorem sWins_length (sch : SSchema) (df : List SRow) (sel : Selection) :
    (sWins sch df sel).length
      = ((sGameLog sch df sel).filter (fun a => a.game_result == "W")).length :=
  List.length_insertionSort sNumLe _

theorem sLosses_length (sch : SSchema) (df : List SRow) (sel : Selection) :
    (sLosses sch df sel).length
      = ((sGameLog sch df sel).filter (fun a => a.game_result == "L")).length :=
  List.length_insertionSort sNumLe _

theorem sGameLog_length (sch : SSchema) (df : List SRow) (sel : Selection) :
    (sGameLog sch df sel).length = (sFiltered sch df sel).length := by
  rw [sGameLog, sAnnotateFrom_length]
  exact List.length_insertionSort (sKeyLe sch) _

theorem get_range'_one (n i : Nat) (h : i < (List.range' 1 n).length) :
    (List.range' 1 n).get ⟨i, h⟩ = i + 1 := by
  simp only [List.get_eq_getElem, List.getElem_range'_1]
  omega

theorem meanQ_eq_none (xs : List ℚ) : meanQ xs = none ↔ xs = [] := by
  unfold meanQ
  split
  · simp [*]
  · simp [*]

theorem filteredRows_sublist (df : List Row) (sel : Selection) :
    List.Sublist (filteredRows df sel) df :=
  (List.filter_sublist _).trans (List.filter_sublist _)

theorem sFiltered_sublist (sch : SSchema) (df : List SRow) (sel : Selection) :
    List.Sublist (sFiltered sch df sel) df := by
  have hbase : List.Sublist (sFilteredBase sch df sel) df := by
    unfold sFilteredBase
    split
    · exact List.filter_sublist _
    · exact List.filter_sublist _
  unfold sFiltered
  split
  · cases sel.gameType
    · exact (List.filter_sublist _).trans hbase
    · exact (List.filter_sublist _).trans hbase
    · exact hbase
  · exact hbase

/-- The result the score branch (lines 102-103) computes, characterised from
the selected team's perspective. -/
theorem scoreResult_spec (sel : Selection) (r : SRow) :
    (scoreResult sel r = "W" ∨ scoreResult sel r = "L") ∧
    (r.team1 = sel.team ∧ r.team2 ≠ sel.team →
      (scoreResult sel r = "W" ↔ r.score2 < r.score1)) ∧
    (r.team2 = sel.team ∧ r.team1 ≠ sel.team →
      (scoreResult sel r = "W" ↔ r.score1 < r.score2)) ∧
    (r.score1 = r.score2 → scoreResult sel r = "L") := by
  refine ⟨?_, ?_, ?_, ?_⟩
  · unfold scoreResult
    split
    · exact Or.inl rfl
    · exact Or.inr rfl
  · rintro ⟨h1, h2⟩
    have b1 : (r.team1 == sel.team) = true := by simpa using h1
    have b2 : (r.team2 == sel.team) = false := by simpa using h2
    unfold scoreResult
    rw [b1, b2]
    simp
  · rintro ⟨h1, h2⟩
    have b1 : (r.team2 == sel.team) = true := by simpa using h1
    have b2 : (r.team1 == sel.team) = false := by simpa using h2
    unfold scoreResult
    rw [b1, b2]
    simp
  · intro h
    unfold scoreResult
    rw [h]
    simp

/-! ### Claim theorems -/

/-- C1: the claim requires the stored result code to be perspective-inverted
when the selected team is the opponent side.  `app.py` does this (line 83),
but `streamilt.py`'s direct-result branch (line 98, `pass`) uses the stored
`game_result` as-is for both sides.  Evaluated at a concrete input: the
selected team "A" is stored as `team2` and the primary side won
(`game_result = "W"`), yet the derived per-game result is "W" — the game is
even counted in the win subsequence — whereas the perspective-inverted value
is "L". -/
theorem claim_C1_eval :
    c1row.team2 = c1sel.team ∧ c1row.team1 ≠ c1sel.team ∧
    (sGameLog c1sch ([ c1row ]) c1sel).map (fun g => g.game_result) = [ "W" ] ∧
    invertResult c1row.game_result = "L" ∧
    (sWins c1sch ([ c1row ]) c1sel).length = 1 := by
  decide

/-- C2: the claim says that when no direct result column and no
`score1`/`score2` pair exist but at least two column names contain "score",
results are derived from the first two of them.  The code (`streamilt.py`
lines 106-111) does show the warning naming those two columns, but then
assigns the literal `'Unknown'` to every row instead of deriving anything
from the scores.  Evaluated at a concrete input with score columns
`home_score`/`away_score` and a decisive score. -/
theorem claim_C2_eval :
    score_cols c2sch = [ "home_score", "away_score" ] ∧
    deriveBranch c2sch = DeriveBranch.scanWarn ([ "home_score", "away_score" ]) ∧
    (sGameLog c2sch ([ c2row ]) c2sel).map (fun g => g.game_result) = [ "Unknown" ] := by
  decide

/-- C3: when results are derived from the `score1`/`score2` pair
(`streamilt.py` lines 99-105), a game is labeled "W" exactly when the score
of the selected team's side strictly exceeds the other side's score, and "L"
otherwise; in particular equal scores yield "L". -/
theorem claim_C3 (sch : SSchema) (df : List SRow) (sel : Selection) (g : SGame)
    (hb : deriveBranch sch = DeriveBranch.fromScores)
    (hg : g ∈ sGameLog sch df sel) :
    (g.game_result = "W" ∨ g.game_result = "L") ∧
    (g.row.team1 = sel.team ∧ g.row.team2 ≠ sel.team →
      (g.game_result = "W" ↔ g.row.score2 < g.row.score1)) ∧
    (g.row.team2 = sel.team ∧ g.row.team1 ≠ sel.team →
      (g.game_result = "W" ↔ g.row.score1 < g.row.score2)) ∧
    (g.row.score1 = g.row.score2 → g.game_result = "L") := by
  obtain ⟨-, hr⟩ := sGameLog_mem sch df sel g hg
  have hres : g.game_result = scoreResult sel g.row := by
    rw [hr, sResult, hb]
  rw [hres]
  exact scoreResult_spec sel g.row

/-- Witness for C3: team "A" is the `team1` side and wins 101-99. -/
theorem claim_C3_wit :
    (c3game.game_result = "W" ∨ c3game.game_result = "L") ∧
    (c3game.row.team1 = c3sel.team ∧ c3game.row.team2 ≠ c3sel.team →
      (c3game.game_result = "W" ↔ c3game.row.score2 < c3game.row.score1)) ∧
    (c3game.row.team2 = c3sel.team ∧ c3game.row.team1 ≠ c3sel.team →
      (c3game.game_result = "W" ↔ c3game.row.score1 < c3game.row.score2)) ∧
    (c3game.row.score1 = c3game.row.score2 → c3game.game_result = "L") :=
  claim_C3 c3sch ([ c3row ]) c3sel c3game (by decide) (by decide)

/-- C8: when the schema offers neither a `game_result` column nor the
`score1`/`score2` pair, every row of the filtered set receives the explicit
`'Unknown'` marker (`streamilt.py` lines 106-114) and no row is dropped: the
computation is total instead of failing. -/
theorem claim_C8 (sch : SSchema) (df : List SRow) (sel : Selection) (g : SGame)
    (h1 : hasCol sch "game_result" = false)
    (h2 : (hasCol sch "score1" && hasCol sch "score2") = false)
    (hg : g ∈ sGameLog sch df sel) :
    g.game_result = "Unknown" ∧
    (sGameLog sch df sel).length = (sFiltered sch df sel).length := by
  refine ⟨?_, sGameLog_length sch df sel⟩
  obtain ⟨-, hr⟩ := sGameLog_mem sch df sel g hg
  have hb : deriveBranch sch = DeriveBranch.scanWarn ((score_cols sch).take 2) ∨
      deriveBranch sch = DeriveBranch.noScore := by
    by_cases h3 : 2 ≤ (score_cols sch).length
    · left
      simp [deriveBranch, h1, h2, h3]
    · right
      simp [deriveBranch, h1, h2, h3]
  rcases hb with hb | hb
  · rw [hr, sResult, hb]
  · rw [hr, sResult, hb]

/-- Witness for C8: a schema with only `year`/`team1`/`team2` columns. -/
theorem claim_C8_wit :
    c8game.game_result = "Unknown" ∧
    (sGameLog c8sch ([ c8row ]) c8sel).length = (sFiltered c8sch ([ c8row ]) c8sel).length :=
  claim_C8 c8sch ([ c8row ]) c8sel c8game (by decide) (by decide) (by decide)

/-- C4 counterexample: with no `date` column, `streamilt.py` line 117 sorts by
the frame's first column instead of keeping the source's natural order.  On a
two-row dataset whose first-column values are 2 then 1, the filter keeps the
natural order but the ordered log reverses it. -/
theorem claim_C4_cex :
    hasCol c4sch "date" = false ∧
    sFiltered c4sch c4sdf c4sel = c4sdf ∧
    (sGameLog c4sch c4sdf c4sel).map (fun g => g.row) ≠ c4sdf := by
  decide

/-- C4 (amended): after filtering, the rows are ordered ascending by the sort
key before the 1-based sequence numbers are assigned.  `app.py` orders by
`date_game` (always present in its fixed schema); `streamilt.py` orders by
`date` when that column exists and otherwise by the frame's first column, so
with no date column the source's natural order is NOT kept (see the
counterexample).  No tie-order property is asserted: pandas' default sort
leaves the relative order of equal-key rows unspecified, so the theorem
states only sortedness and multiset equality, which hold for every ascending
reordering and hence for the program. -/
theorem claim_C4 (df : List Row) (sel : Selection) (sch : SSchema) (sdf : List SRow) :
    ((appGameLog df sel).map (fun a => a.row)).Perm (filteredRows df sel) ∧
    List.Sorted dateLe ((appGameLog df sel).map (fun a => a.row)) ∧
    (appGameLog df sel).map (fun a => a.game_number)
      = List.range' 1 (appGameLog df sel).length ∧
    ((sGameLog sch sdf sel).map (fun a => a.row)).Perm (sFiltered sch sdf sel) ∧
    List.Sorted
      (fun a b : SRow =>
        (if hasCol sch "date" then a.date else a.firstCol)
          ≤ (if hasCol sch "date" then b.date else b.firstCol))
      ((sGameLog sch sdf sel).map (fun a => a.row)) ∧
    (sGameLog sch sdf sel).map (fun a => a.game_number)
      = List.range' 1 (sGameLog sch sdf sel).length := by
  refine ⟨appGameLog_perm df sel, appGameLog_sorted df sel, appGameLog_map_num df sel,
    sGameLog_perm sch sdf sel, ?_, sGameLog_map_num sch sdf sel⟩
  have hs := sGameLog_sorted sch sdf sel
  refine hs.imp ?_
  intro a b hab
  simpa [sKeyLe, sSortKey] using hab

/-- C5: for every filter selection, the cumulative win and loss sequences of
both dashboards hold `i + 1` at 0-based position `i` — so each entry exceeds
its predecessor by exactly 1 and each sequence restarts at 1 — and the win-
and loss-only subsequences they are attached to are ordered by the 1-based
game sequence numbers of the filtered log. -/
theorem claim_C5 (df : List Row) (sel : Selection) (sch : SSchema) (sdf : List SRow) :
    (∀ i (h : i < (cumulative_wins df sel).length),
      (cumulative_wins df sel).get ⟨i, h⟩ = i + 1) ∧
    (∀ i (h : i < (cumulative_losses df sel).length),
      (cumulative_losses df sel).get ⟨i, h⟩ = i + 1) ∧
    List.Sorted numLe (appWins df sel) ∧
    List.Sorted numLe (appLosses df sel) ∧
    (∀ i (h : i < (s_cumulative_wins sch sdf sel).length),
      (s_cumulative_wins sch sdf sel).get ⟨i, h⟩ = i + 1) ∧
    (∀ i (h : i < (s_cumulative_losses sch sdf sel).length),
      (s_cumulative_losses sch sdf sel).get ⟨i, h⟩ = i + 1) ∧
    List.Sorted sNumLe (sWins sch sdf sel) ∧
    List.Sorted sNumLe (sLosses sch sdf sel) :=
  ⟨fun i h => get_range'_one _ i h,
   fun i h => get_range'_one _ i h,
   List.sorted_insertionSort numLe _,
   List.sorted_insertionSort numLe _,
   fun i h => get_range'_one _ i h,
   fun i h => get_range'_one _ i h,
   List.sorted_insertionSort sNumLe _,
   List.sorted_insertionSort sNumLe _⟩

/-- Witness for C5: a season with one win and one loss (the loss stored from
the opponent's perspective) for `app.py`, one win for `streamilt.py`. -/
theorem claim_C5_wit :
    (cumulative_wins c5df c5sel).get ⟨0, by decide⟩ = 0 + 1 ∧
    (cumulative_losses c5df c5sel).get ⟨0, by decide⟩ = 0 + 1 ∧
    (s_cumulative_wins c5sch c5sdf c5sel).get ⟨0, by decide⟩ = 0 + 1 :=
  ⟨(claim_C5 c5df c5sel c5sch c5sdf).1 0 (by decide),
   (claim_C5 c5df c5sel c5sch c5sdf).2.1 0 (by decide),
   (claim_C5 c5df c5sel c5sch c5sdf).2.2.2.2.1 0 (by decide)⟩

/-- C6: in both dashboards, the final cumulative win count plus the final
cumulative loss count equals the number of games in the filtered, ordered log
whose result is determined (labeled "W" or "L"), which is also the
`total_games` value shown in the summary display. -/
theorem claim_C6 (df : List Row) (sel : Selection) (sch : SSchema) (sdf : List SRow) :
    (cumulative_wins df sel).getLastD 0 + (cumulative_losses df sel).getLastD 0
      = ((appGameLog df sel).filter
          (fun a => a.team_result == "W" || a.team_result == "L")).length ∧
    ((appGameLog df sel).filter
        (fun a => a.team_result == "W" || a.team_result == "L")).length
      = appTotalGames df sel ∧
    (s_cumulative_wins sch sdf sel).getLastD 0 + (s_cumulative_losses sch sdf sel).getLastD 0
      = ((sGameLog sch sdf sel).filter
          (fun a => a.game_result == "W" || a.game_result == "L")).length ∧
    ((sGameLog sch sdf sel).filter
        (fun a => a.game_result == "W" || a.game_result == "L")).length
      = sTotalGames sch sdf sel := by
  have hw : (cumulative_wins df sel).getLastD 0
      = ((appGameLog df sel).filter (fun a => a.team_result == "W")).length := by
    rw [cumulative_wins, getLastD_range'_one, appWins_length]
  have hl : (cumulative_losses df sel).getLastD 0
      = ((appGameLog df sel).filter (fun a => a.team_result == "L")).length := by
    rw [cumulative_losses, getLastD_range'_one, appLosses_length]
  have hsw : (s_cumulative_wins sch sdf sel).getLastD 0
      = ((sGameLog sch sdf sel).filter (fun a => a.game_result == "W")).length := by
    rw [s_cumulative_wins, getLastD_range'_one, sWins_length]
  have hsl : (s_cumulative_losses sch sdf sel).getLastD 0
      = ((sGameLog sch sdf sel).filter (fun a => a.game_result == "L")).length := by
    rw [s_cumulative_losses, getLastD_range'_one, sLosses_length]
  have hsplit := length_filter_w_or_l (fun a : AnnotatedGame => a.team_result)
    (appGameLog df sel)
  have hsplit2 := length_filter_w_or_l (fun a : SGame => a.game_result)
    (sGameLog sch sdf sel)
  have hcw := count_map_eq_length_filter (fun a : AnnotatedGame => a.team_result) "W"
    (appGameLog df sel)
  have hcl := count_map_eq_length_filter (fun a : AnnotatedGame => a.team_result) "L"
    (appGameLog df sel)
  have hscw := count_map_eq_length_filter (fun a : SGame => a.game_result) "W"
    (sGameLog sch sdf sel)
  have hscl := count_map_eq_length_filter (fun a : SGame => a.game_result) "L"
    (sGameLog sch sdf sel)
  refine ⟨?_, ?_, ?_, ?_⟩
  · rw [hw, hl, hsplit]
  · rw [hsplit, appTotalGames, appWinCount, appLossCount, hcw, hcl]
  · rw [hsw, hsl, hsplit2]
  · rw [hsplit2, sTotalGames, sWinCount, sLossCount, hscw, hscl]

/-- C7: whenever the determined-result total is zero — in particular when the
filter matches no rows at all — neither dashboard computes a percentage: the
summary is the "no data" or "no results" state, and the divisions of
`app.py` 206/209 and `streamilt.py` 215/218 (which occur only inside the
`stats` state) are never reached. -/
theorem claim_C7 (df : List Row) (sel : Selection) (sch : SSchema) (sdf : List SRow)
    (h1 : appTotalGames df sel = 0) (h2 : sTotalGames sch sdf sel = 0) :
    (appSummary df sel = SummaryView.noData ∨ appSummary df sel = SummaryView.noResults) ∧
    (sSummary sch sdf sel = SummaryView.noData ∨
      sSummary sch sdf sel = SummaryView.noResults) := by
  constructor
  · by_cases he : appGameLog df sel = []
    · left
      simp [appSummary, he]
    · right
      have h1' : appWinCount df sel + appLossCount df sel = 0 := h1
      simp [appSummary, he, h1']
  · by_cases he : sGameLog sch sdf sel = []
    · left
      simp [sSummary, he]
    · right
      have h2' : sWinCount sch sdf sel + sLossCount sch sdf sel = 0 := h2
      simp [sSummary, he, h2']

/-- Witness for C7: an empty `app.py` dataset (the "no data" state) and a
non-empty `streamilt.py` dataset whose results are all `Unknown` (the
"no results" state). -/
theorem claim_C7_wit :
    (appSummary c7df c7sel = SummaryView.noData ∨
      appSummary c7df c7sel = SummaryView.noResults) ∧
    (sSummary c7sch c7sdf c7sel = SummaryView.noData ∨
      sSummary c7sch c7sdf c7sel = SummaryView.noResults) :=
  claim_C7 c7df c7sel c7sch c7sdf (by decide) (by decide)

/-- C9: both pipelines are annotation-only.  The filtered sets are sublists
of the loaded datasets (rows appear verbatim and in source order), and the
original-row component of every annotated log is a permutation of exactly
those untouched filtered rows; the loaded dataset itself is never modified —
every derived value lives in the appended fields of the annotated records. -/
theorem claim_C9 (df : List Row) (sel : Selection) (sch : SSchema) (sdf : List SRow) :
    List.Sublist (filteredRows df sel) df ∧
    ((appGameLog df sel).map (fun a => a.row)).Perm (filteredRows df sel) ∧
    List.Sublist (sFiltered sch sdf sel) sdf ∧
    ((sGameLog sch sdf sel).map (fun a => a.row)).Perm (sFiltered sch sdf sel) :=
  ⟨filteredRows_sublist df sel, appGameLog_perm df sel,
   sFiltered_sublist sch sdf sel, sGameLog_perm sch sdf sel⟩

/-- C10: the additional statistics of `app.py` (averages, point differential,
bar-chart rows) range over exactly the filtered games where the selected team
is the primary side (`fran_id`), excluding opponent-side games; and each
average is the undefined mean (`none`, pandas NaN) precisely when that
primary-side subset is empty — in particular when the filtered set is
non-empty but holds only opponent-side games. -/
theorem claim_C10 (df : List Row) (sel : Selection) :
    (∀ a : AnnotatedGame, a ∈ team_games df sel ↔
      a ∈ appGameLog df sel ∧ a.row.fran_id = sel.team) ∧
    (∀ a : AnnotatedGame, a ∈ teamGamesChart df sel ↔
      a ∈ appGameLog df sel ∧ a.row.fran_id = sel.team) ∧
    (avg_pts_scored df sel = none ↔ team_games df sel = []) ∧
    (avg_pts_allowed df sel = none ↔ team_games df sel = []) ∧
    (point_diff df sel = none ↔ team_games df sel = []) := by
  have hmem : ∀ a : AnnotatedGame, a ∈ team_games df sel ↔
      a ∈ appGameLog df sel ∧ a.row.fran_id = sel.team := by
    intro a
    constructor
    · intro h
      have h1 := List.mem_filter.mp h
      refine ⟨h1.1, ?_⟩
      have h2 := (appGameLog_mem df sel a h1.1).2.1
      have h3 : a.is_team = true := h1.2
      rw [h2] at h3
      simpa using h3
    · rintro ⟨hl, hf⟩
      refine List.mem_filter.mpr ⟨hl, ?_⟩
      have h2 := (appGameLog_mem df sel a hl).2.1
      show a.is_team = true
      rw [h2]
      simpa using hf
  have hscored : avg_pts_scored df sel = none ↔ team_games df sel = [] := by
    rw [avg_pts_scored, meanQ_eq_none, List.map_eq_nil_iff]
  have hallowed : avg_pts_allowed df sel = none ↔ team_games df sel = [] := by
    rw [avg_pts_allowed, meanQ_eq_none, List.map_eq_nil_iff]
  refine ⟨hmem, ?_, hscored, hallowed, ?_⟩
  · intro a
    rw [teamGamesChart, List.mem_insertionSort]
    exact hmem a
  · by_cases h : team_games df sel = []
    · simp [point_diff, hscored.mpr h, hallowed.mpr h, h]
    · obtain ⟨s, hsv⟩ := Option.ne_none_iff_exists'.mp (fun hc => h (hscored.mp hc))
      obtain ⟨t, htv⟩ := Option.ne_none_iff_exists'.mp (fun hc => h (hallowed.mp hc))
      simp [point_diff, hsv, htv, h]
